import Mathlib

/-!
Verification of the ModbusPY tank-control system: a shallow embedding of
the tank simulator tick (`Slave.py`, `simulate_tank`) and the controller
poll tick (`Master.py`, main loop), with theorems settling the spec's
claims about clamping, threshold reporting, the Activation-A latch, the
pump/valve decision policy, and the fail-stop error handling.
-/

namespace ModbusPY

/-! ## Tank simulator (Slave.py) -/

/-- `MAX_LEVEL = 1000` from Slave.py. -/
def MAX_LEVEL : Int := 1000

/-- `MIN_LEVEL = 0` from Slave.py. -/
def MIN_LEVEL : Int := 0

/-- `PUMP_RATE = 5` from Slave.py. -/
def PUMP_RATE : Int := 5

/-- `DRAIN_RATE = 3` from Slave.py. -/
def DRAIN_RATE : Int := 3

/-- `delta = (PUMP_RATE if pump_on else 0) - (DRAIN_RATE if valve_open else 0)`
(Slave.py line 47). -/
def delta (pump_on valve_open : Bool) : Int :=
  (if pump_on then PUMP_RATE else 0) - (if valve_open then DRAIN_RATE else 0)

/-- `new_level = max(MIN_LEVEL, min(MAX_LEVEL, level + delta))` (Slave.py line 48). -/
def new_level (level : Int) (pump_on valve_open : Bool) : Int :=
  max MIN_LEVEL (min MAX_LEVEL (level + delta pump_on valve_open))

/-- The three threshold reports logged by `simulate_tank`. -/
inductive Report where
  | empty
  | half
  | full
deriving DecidableEq, Repr

/-- The elif chain of Slave.py lines 55-65: given the just-written
`new_level` and the current `last_report`, returns the report emitted this
tick (if any) and the updated `last_report`. -/
def thresholdStep (nl : Int) (last : Option Report) :
    Option Report × Option Report :=
  if nl = MIN_LEVEL ∧ last ≠ some Report.empty then
    (some Report.empty, some Report.empty)
  else if nl = MAX_LEVEL / 2 ∧ last ≠ some Report.half then
    (some Report.half, some Report.half)
  else if nl = MAX_LEVEL ∧ last ≠ some Report.full then
    (some Report.full, some Report.full)
  else if MIN_LEVEL < nl ∧ nl < MAX_LEVEL then
    (none, none)
  else
    (none, last)

/-- The per-tick state owned by `simulate_tank`: the stored level
(register 0) and the dedup marker `last_report`. -/
structure TankState where
  level : Int
  last_report : Option Report
deriving DecidableEq, Repr

/-- One tick of `simulate_tank` (Slave.py lines 41-65): read coils and
level, clamp `level + delta`, write it back, run the threshold chain.
Returns the new state and the report emitted this tick, if any. -/
def simTick (s : TankState) (pump_on valve_open : Bool) :
    TankState × Option Report :=
  let nl := new_level s.level pump_on valve_open
  let r := thresholdStep nl s.last_report
  (⟨nl, r.2⟩, r.1)

/-- Initial simulator state: register 0 starts at 500 (Slave.py line 20)
and `last_report = None` (line 39). -/
def simInit : TankState := ⟨500, none⟩

/-- Run `n` ticks of the simulator from `simInit`, the coil values at each
tick given by `f`. -/
def simRun (f : Nat → Bool × Bool) : Nat → TankState
  | 0 => simInit
  | n + 1 => (simTick (simRun f n) (f n).1 (f n).2).1

/-- The report emitted on tick `n+1` of a run (ticks are numbered from 1). -/
def simEmit (f : Nat → Bool × Bool) (n : Nat) : Option Report :=
  (simTick (simRun f n) (f n).1 (f n).2).2

/-! ## Controller (Master.py) -/

/-- The Activation-A latch state: `activation_a_active` and
`activation_a_timer` (Master.py lines 38-39). -/
structure ActState where
  active : Bool
  timer : Int
deriving DecidableEq, Repr

/-- Initial latch state: `activation_a_active = False`,
`activation_a_timer = 0` (Master.py lines 38-39). -/
def actInit : ActState := ⟨false, 0⟩

/-- The Activation-A update of one poll tick (Master.py lines 134-144):
first, if inactive and `500 <= level <= 520`, activate with timer 5; then,
if active, decrement the timer and deactivate when it is `<= 0`. Both
`if` statements run in the same tick (the second is not an `elif`). -/
def actStep (s : ActState) (level : Int) : ActState :=
  let s := if ¬s.active ∧ 500 ≤ level ∧ level ≤ 520 then ⟨true, 5⟩ else s
  if s.active then
    let t := s.timer - 1
    if t ≤ 0 then ⟨false, t⟩ else ⟨true, t⟩
  else s

/-- Run `n` poll ticks of the latch from `actInit`, the level read at each
tick given by `f`. -/
def actRun (f : Nat → Int) : Nat → ActState
  | 0 => actInit
  | n + 1 => actStep (actRun f n) (f n)

/-- The controller's decision state: `auto_control`, `pump_override`,
`valve_override` and the Activation-A latch (Master.py lines 31-39). -/
structure CtlState where
  auto_control : Bool
  pump_override : Option Bool
  valve_override : Option Bool
  act : ActState
deriving DecidableEq, Repr

/-- The pump decision of Master.py lines 147-157: override wins, then auto
control (ON below 300, OFF above 700, hold otherwise), else hold. -/
def target_pump (c : CtlState) (level : Int) (pump_state : Bool) : Bool :=
  match c.pump_override with
  | some v => v
  | none =>
    if c.auto_control then
      if level < 300 then true
      else if level > 700 then false
      else pump_state
    else pump_state

/-- What one poll tick decides, after the sensor reads succeed: the new
latch state and the coil writes issued (`pumpWrite = some v` means
`writeCoil(0, v)` was issued, likewise `valveWrite` for coil 1). -/
structure PollOutcome where
  newAct : ActState
  pumpWrite : Option Bool
  valveWrite : Option Bool
deriving DecidableEq, Repr

/-- The decision part of one poll tick (Master.py lines 134-166): run the
Activation-A update, choose `target_pump` and write coil 0 iff it differs
from `pump_state` (lines 159-160), and write coil 1 iff `valve_override`
is set and differs from `valve_state` (lines 164-165). -/
def pollDecide (c : CtlState) (level : Int) (pump_state valve_state : Bool) :
    PollOutcome :=
  let a := actStep c.act level
  let tp := target_pump c level pump_state
  let pw := if tp ≠ pump_state then some tp else none
  let vw :=
    match c.valve_override with
    | some v => if v ≠ valve_state then some v else none
    | none => none
  ⟨a, pw, vw⟩

/-- A response to a Modbus read, as tested by Master.py line 123:
`fail` models a falsy result (`not rr`), `err` a response whose
`isError()` is true, `ok` a successful response carrying its payload. -/
inductive Resp (α : Type) where
  | fail
  | err
  | ok (v : α)
deriving DecidableEq, Repr

/-- `not r or r.isError()` (Master.py line 123). -/
def Resp.isBad : Resp α → Bool
  | .fail => true
  | .err => true
  | .ok _ => false

/-- The outcome of one full poll tick. `halt` is the `break` out of the
control loop (lines 125 and 132); `crash` is an uncaught exception
(`rr.registers[0]` on an empty register list, line 127, is outside the
`try`); `acted` carries the decision taken. -/
inductive TickResult where
  | halt
  | crash
  | acted (o : PollOutcome)
deriving DecidableEq, Repr

/-- One full poll tick of Master.py lines 121-166: read register 0 and
coils [0,2); on a failed or error response `break` (halt); on a coil
response with fewer than 2 bits the `IndexError` handler breaks (halt);
otherwise decide and write. -/
def pollTick (c : CtlState) (rr : Resp (List Int)) (rc : Resp (List Bool)) :
    TickResult :=
  if rr.isBad ∨ rc.isBad then .halt
  else
    match rr, rc with
    | .ok regs, .ok bits =>
      match regs.head? with
      | none => .crash
      | some level =>
        match bits[0]?, bits[1]? with
        | some p, some v => .acted (pollDecide c level p v)
        | _, _ => .halt
    | _, _ => .halt

/-! ## Helper lemmas -/

/-- The inductive invariant of the Activation-A latch: inactive states
carry timer 0, active states carry a timer in `[1, 4]`. -/
def ActInv (s : ActState) : Prop :=
  (s.active = false → s.timer = 0) ∧ (s.active = true → 1 ≤ s.timer ∧ s.timer ≤ 4)

lemma actStep_active (t l : Int) :
    actStep ⟨true, t⟩ l = if t - 1 ≤ 0 then ⟨false, t - 1⟩ else ⟨true, t - 1⟩ := by
  simp [actStep]

lemma actStep_idle {t l : Int} (hw : ¬(500 ≤ l ∧ l ≤ 520)) :
    actStep ⟨false, t⟩ l = ⟨false, t⟩ := by
  simp [actStep, hw]

lemma actStep_trigger {t l : Int} (h1 : 500 ≤ l) (h2 : l ≤ 520) :
    actStep ⟨false, t⟩ l = ⟨true, 4⟩ := by
  norm_num [actStep, h1, h2]

lemma actStep_inv {s : ActState} (hs : ActInv s) (l : Int) : ActInv (actStep s l) := by
  obtain ⟨a, t⟩ := s
  cases a with
  | false =>
    have ht : t = 0 := hs.1 rfl
    subst ht
    by_cases hw : (500 : Int) ≤ l ∧ l ≤ 520
    · rw [actStep_trigger hw.1 hw.2]
      exact ⟨fun h => by simp at h, fun _ => by norm_num⟩
    · rw [actStep_idle hw]
      exact hs
  | true =>
    have ht := hs.2 rfl
    simp only at ht
    rw [actStep_active]
    by_cases hz : t - 1 ≤ 0
    · rw [if_pos hz]
      exact ⟨fun _ => by simp only; omega, fun h => by simp at h⟩
    · rw [if_neg hz]
      exact ⟨fun h => by simp at h, fun _ => by simp only; omega⟩

lemma actStep_of_active {s : ActState} (hs : s.active = true) (l : Int) :
    actStep s l =
      if s.timer - 1 ≤ 0 then ⟨false, s.timer - 1⟩ else ⟨true, s.timer - 1⟩ := by
  obtain ⟨a, t⟩ := s
  simp only at hs
  subst hs
  exact actStep_active t l

lemma actRun_inv (f : Nat → Int) (n : Nat) : ActInv (actRun f n) := by
  induction n with
  | zero => exact ⟨fun _ => rfl, by simp [actRun, actInit]⟩
  | succ n ih => exact actStep_inv ih (f n)

/-! ## Claims -/

/-- C1: each simulator tick computes `delta = (5 if pump_on else 0) -
(3 if valve_open else 0)` and writes back `clamp(level + delta, 0, 1000)`,
so the written level is always in `[0, 1000]`; in particular every
reachable tick of a run from the initial store, under any coil sequence
(including repeated max-rate pumping or draining from the boundaries),
keeps the stored level in `[0, 1000]`. -/
theorem C1_tick_clamp_bounds :
    (∀ (level : Int) (p v : Bool),
      delta p v = (if p then 5 else 0) - (if v then 3 else 0) ∧
      new_level level p v = max 0 (min 1000 (level + delta p v)) ∧
      0 ≤ new_level level p v ∧ new_level level p v ≤ 1000) ∧
    ∀ (f : Nat → Bool × Bool) (n : Nat),
      0 ≤ (simRun f n).level ∧ (simRun f n).level ≤ 1000 := by
  have key : ∀ (level : Int) (p v : Bool),
      0 ≤ new_level level p v ∧ new_level level p v ≤ 1000 := by
    intro level p v
    unfold new_level MIN_LEVEL MAX_LEVEL
    constructor
    · exact le_max_left 0 _
    · exact max_le (by norm_num) (min_le_left _ _)
  refine ⟨fun level p v => ⟨rfl, rfl, key level p v⟩, fun f n => ?_⟩
  induction n with
  | zero => simp [simRun, simInit]
  | succ n _ => exact key (simRun f n).level (f n).1 (f n).2

/-- C2 counterexample: polling a constant level 510 from the initial
(inactive) latch state, the end-of-tick state after the activating poll
tick is `⟨active, timer = 4⟩` (not timer = 5: the same tick also
decrements), and after only 4 further poll ticks (5 ticks in total) the
latch is already inactive — refuting "becomes active with timer = 5" and
"becomes inactive after exactly 5 subsequent poll ticks". -/
theorem C2_counterexample :
    actRun (fun _ => 510) 1 = ⟨true, 4⟩ ∧
    actRun (fun _ => 510) 5 = ⟨false, 0⟩ := by
  constructor <;> rfl

/-- C2 amended: if the latch is inactive and the level is in `[500, 520]`,
the tick activates it with timer set to 5 and then decremented in the same
tick, leaving `⟨active, 4⟩`; the three following ticks leave it active
with timers 3, 2, 1 and the fourth subsequent tick deactivates it,
regardless of the levels read during that window; and while active, a
level in `[500, 520]` (or any level) changes nothing about the update. -/
theorem C2_latch_window (s : ActState) (level l1 l2 l3 l4 : Int)
    (hs : s.active = false) (h1 : 500 ≤ level) (h2 : level ≤ 520) :
    actStep s level = ⟨true, 4⟩ ∧
    actStep ⟨true, 4⟩ l1 = ⟨true, 3⟩ ∧
    actStep ⟨true, 3⟩ l2 = ⟨true, 2⟩ ∧
    actStep ⟨true, 2⟩ l3 = ⟨true, 1⟩ ∧
    actStep ⟨true, 1⟩ l4 = ⟨false, 0⟩ ∧
    (∀ (t : Int) (l l' : Int), actStep ⟨true, t⟩ l = actStep ⟨true, t⟩ l') := by
  obtain ⟨a, t⟩ := s
  simp only at hs
  subst hs
  refine ⟨actStep_trigger h1 h2, ?_, ?_, ?_, ?_, ?_⟩
  · rw [actStep_active]; norm_num
  · rw [actStep_active]; norm_num
  · rw [actStep_active]; norm_num
  · rw [actStep_active]; norm_num
  · intro t l l'
    rw [actStep_active, actStep_active]

/-- C2 witness: the amended theorem applied at the initial latch state and
level 510. -/
theorem C2_latch_window_witness : actStep actInit 510 = ⟨true, 4⟩ :=
  (C2_latch_window actInit 510 0 0 0 0 rfl (by norm_num) (by norm_num)).1

/-- C3: in the run where both coils stay off from the initial store
(level constant at 500), "Tank Half Full" is emitted on tick 1, tick 2
emits nothing but resets `last_report` to none via the
`0 < new_level < 1000` elif, and tick 3 emits "Tank Half Full" AGAIN,
although the level never left 500 — the code re-fires a threshold report
without a distinct entry, contradicting the claim and the code's own
"Log threshold events once" comment. -/
theorem C3_half_report_refires :
    simEmit (fun _ => (false, false)) 0 = some Report.half ∧
    (simRun (fun _ => (false, false)) 1).level = 500 ∧
    simEmit (fun _ => (false, false)) 1 = none ∧
    (simRun (fun _ => (false, false)) 2).last_report = none ∧
    (simRun (fun _ => (false, false)) 2).level = 500 ∧
    simEmit (fun _ => (false, false)) 2 = some Report.half := by
  refine ⟨rfl, rfl, rfl, rfl, rfl, rfl⟩

/-- C4: the pump target follows the priority override > auto > hold —
an override forces its value; under auto control the target is ON below
level 300, OFF above 700, and the current pump state in `[300, 700]`;
with auto off and no override the current pump state is held — and
`writeCoil(0, target)` is issued iff the target differs from the current
pump state. -/
theorem C4_pump_decision (c : CtlState) (level : Int) (p vs : Bool) :
    (∀ v, c.pump_override = some v → target_pump c level p = v) ∧
    (c.pump_override = none → c.auto_control = true → level < 300 →
      target_pump c level p = true) ∧
    (c.pump_override = none → c.auto_control = true → level > 700 →
      target_pump c level p = false) ∧
    (c.pump_override = none → c.auto_control = true → 300 ≤ level →
      level ≤ 700 → target_pump c level p = p) ∧
    (c.pump_override = none → c.auto_control = false →
      target_pump c level p = p) ∧
    (∀ w, (pollDecide c level p vs).pumpWrite = some w ↔
      w = target_pump c level p ∧ target_pump c level p ≠ p) ∧
    ((pollDecide c level p vs).pumpWrite = none ↔ target_pump c level p = p) := by
  refine ⟨?_, ?_, ?_, ?_, ?_, ?_, ?_⟩
  · intro v hv; simp [target_pump, hv]
  · intro ho ha hl; simp [target_pump, ho, ha, hl]
  · intro ho ha hl
    simp [target_pump, ho, ha, hl, not_lt.mpr (by omega : (300 : Int) ≤ level)]
  · intro ho ha hl hu
    simp [target_pump, ho, ha, not_lt.mpr hl, not_lt.mpr hu]
  · intro ho ha; simp [target_pump, ho, ha]
  · intro w
    simp only [pollDecide]
    by_cases h : target_pump c level p = p
    · simp [h]
    · simp [h]; tauto
  · simp only [pollDecide]
    by_cases h : target_pump c level p = p
    · simp [h]
    · simp [h]

/-- C4 witness: the spec's scenario — level 250, auto control on, no
override, pump currently OFF — chooses target ON, and the write of coil 0
is issued. -/
theorem C4_pump_decision_witness :
    target_pump ⟨true, none, none, actInit⟩ 250 false = true ∧
    (pollDecide ⟨true, none, none, actInit⟩ 250 false false).pumpWrite = some true := by
  have h := C4_pump_decision ⟨true, none, none, actInit⟩ 250 false false
  have ht : target_pump ⟨true, none, none, actInit⟩ 250 false = true :=
    h.2.1 rfl rfl (by norm_num)
  exact ⟨ht, ((h.2.2.2.2.2.1 true).mpr ⟨ht.symm, by rw [ht]; simp⟩)⟩

/-- C5: `writeCoil(1, v)` is issued iff `valve_override` is set to `v` and
`v` differs from the valve state just read; with no override no valve
write happens; and the valve write is unchanged by `auto_control`,
`pump_override` and the activation latch state. -/
theorem C5_valve_decision (c : CtlState) (level : Int) (p vs : Bool) :
    (∀ v, (pollDecide c level p vs).valveWrite = some v ↔
      (c.valve_override = some v ∧ v ≠ vs)) ∧
    (c.valve_override = none → (pollDecide c level p vs).valveWrite = none) ∧
    (∀ (auto : Bool) (po : Option Bool) (a : ActState) (l : Int) (q : Bool),
      (pollDecide ⟨auto, po, c.valve_override, a⟩ l q vs).valveWrite =
        (pollDecide c level p vs).valveWrite) := by
  refine ⟨?_, ?_, ?_⟩
  · intro v
    cases hvo : c.valve_override with
    | none => simp [pollDecide, hvo]
    | some u =>
      simp only [pollDecide, hvo, Option.some.injEq]
      split_ifs with h
      · constructor
        · intro he
          injection he with he
          subst he
          exact ⟨rfl, h⟩
        · intro he
          rw [he.1]
      · constructor
        · intro he; cases he
        · intro he
          rw [not_not] at h
          exact absurd (he.1 ▸ h) he.2
  · intro hvo; simp [pollDecide, hvo]
  · intro auto po a l q
    simp [pollDecide]

/-- C5 witness: with valve override OPEN and the valve read CLOSED, the
theorem yields the issued write of coil 1. -/
theorem C5_valve_decision_witness :
    (pollDecide ⟨true, none, some true, actInit⟩ 400 false false).valveWrite = some true :=
  ((C5_valve_decision ⟨true, none, some true, actInit⟩ 400 false false).1 true).mpr
    ⟨rfl, by simp⟩

/-- C6: in every state reachable by the control loop from the initial
latch state, under any level sequence, a strictly positive
`activation_a_timer` implies `activation_a_active`; while active, one poll
tick decrements the timer exactly once; and the tick deactivates the latch
exactly when the decremented timer is `≤ 0`. -/
theorem C6_latch_invariant (f : Nat → Int) (n : Nat) :
    (0 < (actRun f n).timer → (actRun f n).active = true) ∧
    ((actRun f n).active = true →
      (actRun f (n + 1)).timer = (actRun f n).timer - 1 ∧
      ((actRun f (n + 1)).active = false ↔ (actRun f n).timer - 1 ≤ 0)) := by
  have hinv := actRun_inv f n
  constructor
  · intro ht
    by_contra h
    have h0 := hinv.1 (by simpa using h)
    omega
  · intro ha
    have hrw : actRun f (n + 1) = actStep (actRun f n) (f n) := rfl
    rw [hrw, actStep_of_active ha]
    by_cases hz : (actRun f n).timer - 1 ≤ 0
    · simp [hz]
    · simp [hz]

/-- C6 witness: the invariant theorem applied to the constant-510 run
after the activating tick. -/
theorem C6_latch_invariant_witness :
    (actRun (fun _ => 510) 1).active = true ∧
    (actRun (fun _ => 510) 2).timer = (actRun (fun _ => 510) 1).timer - 1 :=
  ⟨(C6_latch_invariant (fun _ => 510) 1).1 (by decide),
   ((C6_latch_invariant (fun _ => 510) 1).2 (by decide)).1⟩

/-- C7: if the register read or the coil read fails or is an error
response, the poll tick halts the control loop (the `break`), issuing no
decision and no write; and a successful coil response carrying fewer than
2 bits likewise halts (the caught `IndexError`). `halt` carries no
`PollOutcome`, so no write is issued on these paths. -/
theorem C7_fail_stop (c : CtlState) (rr : Resp (List Int)) (rc : Resp (List Bool)) :
    (rr.isBad = true ∨ rc.isBad = true → pollTick c rr rc = TickResult.halt) ∧
    (∀ (level : Int) (rest : List Int) (bits : List Bool),
      rr = Resp.ok (level :: rest) → rc = Resp.ok bits → bits.length < 2 →
      pollTick c rr rc = TickResult.halt) := by
  constructor
  · intro h
    unfold pollTick
    rw [if_pos h]
  · rintro level rest bits rfl rfl hlen
    cases bits with
    | nil => rfl
    | cons b bs =>
      cases bs with
      | nil => rfl
      | cons b2 bs2 =>
        simp only [List.length_cons] at hlen
        omega

/-- C7 witness: an error register response halts; a 1-bit coil response
halts. -/
theorem C7_fail_stop_witness :
    pollTick ⟨true, none, none, actInit⟩ Resp.err (Resp.ok [false, false]) =
      TickResult.halt ∧
    pollTick ⟨true, none, none, actInit⟩ (Resp.ok [500]) (Resp.ok [false]) =
      TickResult.halt :=
  ⟨(C7_fail_stop ⟨true, none, none, actInit⟩ Resp.err (Resp.ok [false, false])).1
      (Or.inl rfl),
   (C7_fail_stop ⟨true, none, none, actInit⟩ (Resp.ok [500]) (Resp.ok [false])).2
      500 [] [false] rfl rfl (by norm_num)⟩

/-- C9: the Activation-A latch is observationally inert for actuation —
two poll ticks that read the same level/pump/valve under the same control
flags choose the same pump target and issue the same coil writes,
whatever the values of `activation_a_active` and `activation_a_timer`. -/
theorem C9_latch_inert (auto : Bool) (po vo : Option Bool) (a b : ActState)
    (level : Int) (p vs : Bool) :
    target_pump ⟨auto, po, vo, a⟩ level p = target_pump ⟨auto, po, vo, b⟩ level p ∧
    (pollDecide ⟨auto, po, vo, a⟩ level p vs).pumpWrite =
      (pollDecide ⟨auto, po, vo, b⟩ level p vs).pumpWrite ∧
    (pollDecide ⟨auto, po, vo, a⟩ level p vs).valveWrite =
      (pollDecide ⟨auto, po, vo, b⟩ level p vs).valveWrite :=
  ⟨rfl, rfl, rfl⟩

/-- C10: the per-tick delta is always one of `{-3, 0, 2, 5}`; the tick
from level 499 with pump ON and valve OPEN lands on 501, emits no report,
and sets `last_report` to none; any level not exactly 0, 500 or 1000
emits no report; and clamping reaches 0 and 1000 exactly (tick from 2
draining lands on exactly 0, tick from 998 pumping on exactly 1000). -/
theorem C10_exact_threshold (l : Int) (last : Option Report)
    (h0 : l ≠ 0) (h500 : l ≠ 500) (h1000 : l ≠ 1000) :
    (∀ p v, delta p v = -3 ∨ delta p v = 0 ∨ delta p v = 2 ∨ delta p v = 5) ∧
    simTick ⟨499, none⟩ true true = (⟨501, none⟩, none) ∧
    (thresholdStep l last).1 = none ∧
    (MIN_LEVEL < l → l < MAX_LEVEL → (thresholdStep l last).2 = none) ∧
    new_level 2 false true = 0 ∧
    new_level 998 true false = 1000 := by
  have hoff : thresholdStep l last =
      if MIN_LEVEL < l ∧ l < MAX_LEVEL then (none, none) else (none, last) := by
    have hh : MAX_LEVEL / 2 = (500 : Int) := by norm_num [MAX_LEVEL]
    unfold thresholdStep
    rw [hh]
    rw [if_neg (fun h => h0 (by simpa [MIN_LEVEL] using h.1))]
    rw [if_neg (fun h => h500 h.1)]
    rw [if_neg (fun h => h1000 (by simpa [MAX_LEVEL] using h.1))]
  refine ⟨?_, by decide, ?_, ?_, by decide, by decide⟩
  · intro p v
    cases p <;> cases v <;> simp [delta, PUMP_RATE, DRAIN_RATE]
  · rw [hoff]
    by_cases h4 : MIN_LEVEL < l ∧ l < MAX_LEVEL
    · rw [if_pos h4]
    · rw [if_neg h4]
  · intro hl hu
    rw [hoff, if_pos ⟨hl, hu⟩]

/-- C10 witness: the theorem applied at level 501 (the 499 → 501 crossing)
— no report is emitted and `last_report` is cleared. -/
theorem C10_exact_threshold_witness :
    (thresholdStep 501 none).1 = none ∧ (thresholdStep 501 none).2 = none :=
  ⟨(C10_exact_threshold 501 none (by decide) (by decide) (by decide)).2.2.1,
   (C10_exact_threshold 501 none (by decide) (by decide) (by decide)).2.2.2.1
      (by decide) (by decide)⟩

end ModbusPY
